import Mathlib

/-!
Shallow embedding of the EDU_AI backend (Dhruv3595/EDU_AI), covering the
parts of the code the specification's claims talk about:

* `backend/services/ai_generator.py`: `generate_ai_study_plan` and
  `generate_algorithmic_fallback`.
* `backend/routers/assessments.py`: the scoring loop of `submit_assessment`,
  `generate_gap_analysis` and `calculate_level`.
* `backend/routers/study_plans.py`: the status-update core of `update_task`.

Modelling conventions:
* Python `date`s become `Int` day numbers (a date's `toordinal()`);
  `timedelta(days = i)` is `+ i` and `(end - start).days` is `end - start`.
* Python `float` arithmetic on `daily_hours` is modelled with exact
  rationals `ℚ`; `int(x)` is truncation toward zero (`py_int`).
* Python code that can raise (indexing `topics[_ % len(topics)]` raises
  `ZeroDivisionError` when `topics` is empty) returns `Option`: `none`
  is an uncaught exception.
* The Gemini HTTP exchange is an input to the function: `GeminiResult`
  enumerates the outcomes the code branches on (missing key, request
  exception, non-200 status, missing candidates, parse failure, or a
  parsed payload with its task list and metadata).
-/

namespace EduAI

/-- Python `int(q)` for a rational: truncation toward zero. -/
def py_int (q : ℚ) : Int := q.num.tdiv q.den

/-- One entry of `subtopic_templates` in `generate_algorithmic_fallback`. -/
structure SubTemplate where
  name : String
  desc : String
deriving Repr, DecidableEq

/-- The six phase templates of `generate_algorithmic_fallback`. -/
def subtopic_templates : List SubTemplate :=
  [ ⟨"Foundations & Fundamentals",
     "Grasp the core logic and terminology. Focus on 'Why' it works."⟩,
    ⟨"Step-by-Step Implementation",
     "Follow a tutorial to build your first working example."⟩,
    ⟨"Pattern Recognition",
     "Solve 3-5 variants of standard problems to build instinct."⟩,
    ⟨"Debugging & Troubleshooting",
     "Deliberately break your code/solution and fix it."⟩,
    ⟨"Deep Architectural Review",
     "Analyze the theory and best practices used in the industry."⟩,
    ⟨"Consolidation Challenge",
     "Synthesize everything learned into a final review session."⟩ ]

/-- `subtopic_templates[j % len(subtopic_templates)]`.  The index
`j % 6` is always in range (the list is non-empty and concrete), so the
`getD` default is never taken. -/
def sub_template (j : Nat) : SubTemplate :=
  subtopic_templates.getD (j % subtopic_templates.length) ⟨"", ""⟩

/-- Python `l[j % len(l)]`: raises `ZeroDivisionError` (`none`) when `l`
is empty, otherwise in-range indexing. -/
def list_index_mod (l : List String) (j : Nat) : Option String :=
  if h : l.length = 0 then none
  else some (l.get ⟨j % l.length, Nat.mod_lt _ (Nat.pos_of_ne_zero h)⟩)

/-- One task dictionary of a generated plan.  Fields that a collaborator
payload may omit and that the fallback always sets are `Option`s. -/
structure Task where
  topic : String
  subtopic : Option String
  description : String
  task_type : String
  scheduled_date : Int
  duration_minutes : Int
  priority : Int
  resources : List String
  pro_tip : Option String
deriving Repr, DecidableEq

/-- `plan_metadata`: built by the fallback, passed through on the
delegated path. -/
structure PlanMetadata where
  curriculum_goal : Option String
  learning_tactics : List String
deriving Repr, DecidableEq

/-- The dictionary returned by both generation paths. -/
structure Plan where
  topics : List String
  daily_hours : ℚ
  tasks : List Task
  metadata : PlanMetadata
deriving Repr, DecidableEq

/-- The `for i in range(total_days)` loop of `generate_algorithmic_fallback`,
carrying `topic_idx` and `sub_idx` exactly as the source does; `n` is the
number of remaining iterations and `i` the current day index.
`list_index_mod` propagates the `ZeroDivisionError` on empty `topics`. -/
def fallback_go (topics : List String) (start_date : Int) (daily_minutes : Int) :
    Nat → Nat → Nat → Nat → Option (List Task)
  | 0, _, _, _ => some []
  | n + 1, i, topic_idx, sub_idx =>
    match list_index_mod topics topic_idx with
    | none => none
    | some current_topic =>
      let day_date := start_date + (i : Int)
      let sub_info := sub_template sub_idx
      let sub_idx' := sub_idx + 1
      let topic_idx' := if sub_idx' % subtopic_templates.length = 0
        then topic_idx + 1 else topic_idx
      let task : Task :=
        { topic := current_topic ++ ": " ++ sub_info.name
          subtopic := some sub_info.name
          description := sub_info.desc ++ " This path ensures you master " ++
            current_topic ++ " from first principles."
          task_type := if i % 2 = 0 then "study" else "practice"
          scheduled_date := day_date
          duration_minutes := daily_minutes
          priority := 2
          resources := [current_topic ++ " study guide",
                        current_topic ++ " practice labs"]
          pro_tip := none }
      match fallback_go topics start_date daily_minutes n (i + 1) topic_idx' sub_idx' with
      | none => none
      | some rest => some (task :: rest)

/-- `generate_algorithmic_fallback(topics, start_date, end_date, daily_hours)`.
`none` models the uncaught `ZeroDivisionError` on empty `topics`. -/
def generate_algorithmic_fallback (topics : List String)
    (start_date end_date : Int) (daily_hours : ℚ) : Option Plan :=
  let total_days := (end_date - start_date) + 1
  let daily_minutes := py_int (daily_hours * 60)
  match fallback_go topics start_date daily_minutes total_days.toNat 0 0 0 with
  | none => none
  | some tasks =>
    some
      { topics := topics
        daily_hours := daily_hours
        tasks := tasks
        metadata :=
          { curriculum_goal := some ("Master the foundations of " ++
              (topics.headD "the subject"))
            learning_tactics :=
              [ "Focus on first principles", "Practice active recall",
                "Build small experiments", "Teach concepts to others" ] } }

/-- A task entry of a parsed collaborator payload, before normalisation.
`topic` and `description` are the keys the code reads unconditionally
(a payload without them raises `KeyError`, which the surrounding
`except` turns into the fallback path, i.e. it never reaches the
per-entry normalisation). -/
structure ProvidedTask where
  scheduled_date : String
  topic : String
  subtopic : Option String
  description : String
  task_type : String
  duration_minutes : Option Int
  priority : Option Int
  resources : List String
  pro_tip : Option String
deriving Repr, DecidableEq

/-- Possible outcomes of the Gemini delegation that
`generate_ai_study_plan` branches on. -/
inductive GeminiResult where
  | noKey : GeminiResult
  | requestException : GeminiResult
  | httpError (status : Nat) : GeminiResult
  | noCandidates : GeminiResult
  | parseFailure : GeminiResult
  | success (provided_tasks : List ProvidedTask) (plan_metadata : PlanMetadata) :
      GeminiResult

/-- Per-entry normalisation in the success branch of
`generate_ai_study_plan` (body of the `for i, task in enumerate(...)`
loop): overwrite `scheduled_date` with `start_date + i`, default
`duration_minutes` and `priority`, append the pro-tip to the
description, and qualify generic topics with the subtopic. -/
def process_task (subject : String) (topics : List String) (start_date : Int)
    (daily_minutes : Int) (i : Nat) (t : ProvidedTask) : Task :=
  let description := match t.pro_tip with
    | some tip => t.description ++ "\n\n💡 Pro-tip: " ++ tip
    | none => t.description
  let topic :=
    if t.topic.toLower = subject.toLower ∨
        (topics.map String.toLower).contains t.topic.toLower
    then t.topic ++ ": " ++ t.subtopic.getD "Core Concepts"
    else t.topic
  { topic := topic
    subtopic := t.subtopic
    description := description
    task_type := t.task_type
    scheduled_date := start_date + (i : Int)
    duration_minutes := t.duration_minutes.getD daily_minutes
    priority := t.priority.getD 2
    resources := t.resources
    pro_tip := t.pro_tip }

/-- The accepting loop of the success branch: `enumerate` with
`if i >= total_days: break`.  `i` is the index of the head of the
remaining list. -/
def process_tasks (subject : String) (topics : List String) (start_date : Int)
    (daily_minutes : Int) (total_days : Int) :
    Nat → List ProvidedTask → List Task
  | _, [] => []
  | i, t :: rest =>
    if (i : Int) ≥ total_days then []
    else process_task subject topics start_date daily_minutes i t ::
      process_tasks subject topics start_date daily_minutes total_days (i + 1) rest

/-- `generate_ai_study_plan(subject, topics, start_date, end_date,
daily_hours, ...)` with the delegation outcome made explicit.  Every
non-success outcome falls back to `generate_algorithmic_fallback`. -/
def generate_ai_study_plan (subject : String) (topics : List String)
    (start_date end_date : Int) (daily_hours : ℚ) (gemini : GeminiResult) :
    Option Plan :=
  match gemini with
  | .noKey =>
    generate_algorithmic_fallback topics start_date end_date daily_hours
  | .requestException =>
    generate_algorithmic_fallback topics start_date end_date daily_hours
  | .httpError _ =>
    generate_algorithmic_fallback topics start_date end_date daily_hours
  | .noCandidates =>
    generate_algorithmic_fallback topics start_date end_date daily_hours
  | .parseFailure =>
    generate_algorithmic_fallback topics start_date end_date daily_hours
  | .success provided meta =>
    let total_days := (end_date - start_date) + 1
    let daily_minutes := py_int (daily_hours * 60)
    some
      { topics := topics
        daily_hours := daily_hours
        tasks := process_tasks subject topics start_date daily_minutes
          total_days 0 provided
        metadata := meta }

/-- A `{"correct": _, "total": _}` value of the `topic_performance` dict
built in `submit_assessment` and consumed by `generate_gap_analysis` /
`calculate_level`. -/
structure Perf where
  correct : Nat
  total : Nat
deriving Repr, DecidableEq

/-- A `TopicPerformance` dict, as an association list.  Python dict keys
are distinct; claims that need this take a `Nodup` hypothesis on the
keys. -/
abbrev TopicPerformance := List (String × Perf)

/-- `accuracy = (correct / total * 100) if total > 0 else 0` for one
topic. -/
def accuracy (p : Perf) : ℚ :=
  if p.total > 0 then (p.correct : ℚ) / (p.total : ℚ) * 100 else 0

/-- One entry of the `gaps` list of a gap analysis. -/
structure GapEntry where
  topic : String
  accuracy : ℚ
  severity : String
deriving Repr, DecidableEq

/-- One entry of the `strengths` list of a gap analysis. -/
structure StrengthEntry where
  topic : String
  accuracy : ℚ
deriving Repr, DecidableEq

/-- `calculate_level(topic_performance)`. -/
def calculate_level (tp : TopicPerformance) : String :=
  if tp = [] then "beginner"
  else
    let total_correct : Nat := (tp.map (fun x => x.2.correct)).sum
    let total_questions : Nat := (tp.map (fun x => x.2.total)).sum
    let acc : ℚ := if total_questions > 0
      then (total_correct : ℚ) / (total_questions : ℚ) * 100 else 0
    if acc ≥ 80 then "advanced"
    else if acc ≥ 60 then "intermediate"
    else "beginner"

/-- The dict returned by `generate_gap_analysis`. -/
structure GapAnalysis where
  gaps : List GapEntry
  strengths : List StrengthEntry
  overall_level : String
deriving Repr, DecidableEq

/-- The classification loop of `generate_gap_analysis`: `accuracy < 50`
appends a gap (severity `"high"` below 30, else `"medium"`), otherwise
`accuracy >= 80` appends a strength; both lists keep dict order. -/
def generate_gap_analysis (tp : TopicPerformance) : GapAnalysis :=
  { gaps := tp.filterMap (fun x =>
      if accuracy x.2 < 50
      then some ⟨x.1, accuracy x.2, if accuracy x.2 < 30 then "high" else "medium"⟩
      else none)
    strengths := tp.filterMap (fun x =>
      if accuracy x.2 < 50 then none
      else if accuracy x.2 ≥ 80 then some ⟨x.1, accuracy x.2⟩
      else none)
    overall_level := calculate_level tp }

/-- A stored question, reduced to the fields the scoring loop of
`submit_assessment` reads. -/
structure Question where
  correct_answer : String
  topic : String
deriving Repr, DecidableEq

/-- A submitted `(question_id, answer)` tuple. -/
structure AnswerSubmission where
  question_id : Nat
  answer : String
deriving Repr, DecidableEq

/-- The scoring aggregates that `submit_assessment` writes back:
`score`, `correct_answers`, `answered_questions`. -/
structure SubmitResult where
  score : ℚ
  correct_answers : Nat
  answered_questions : Nat
deriving Repr, DecidableEq

/-- The answer-processing loop of `submit_assessment` restricted to the
score: a tuple whose id does not resolve is skipped (`continue`), a
resolved tuple is correct when its answer equals the stored
`correct_answer`.  `resolve` abstracts the per-id database lookup. -/
def correct_count (resolve : Nat → Option Question) :
    List AnswerSubmission → Nat
  | [] => 0
  | a :: rest =>
    match resolve a.question_id with
    | none => correct_count resolve rest
    | some q =>
      (if a.answer = q.correct_answer then 1 else 0) + correct_count resolve rest

/-- The score computation of `submit_assessment`:
`score = (correct_count / len(submission.answers) * 100) if
submission.answers else 0`, with `answered_questions =
len(submission.answers)`. -/
def submit_score (resolve : Nat → Option Question)
    (answers : List AnswerSubmission) : SubmitResult :=
  let cc := correct_count resolve answers
  { score := if answers ≠ [] then (cc : ℚ) / (answers.length : ℚ) * 100 else 0
    correct_answers := cc
    answered_questions := answers.length }

/-- The columns of a `StudyTask` row that `update_task` touches. -/
structure TaskState where
  status : String
  completed_at : Option Nat
  notes : Option String
deriving Repr, DecidableEq

/-- The column of the parent `StudyPlan` row that `update_task`
touches. -/
structure PlanState where
  completed_tasks : Int
deriving Repr, DecidableEq

/-- The body of `update_task` after the ownership lookup: apply an
optional status update (Python truthiness: `None` and `""` skip the
block) with the completed-boundary counter/timestamp logic, then an
optional notes update.  `now` stands for `datetime.utcnow()`. -/
def update_task (task : TaskState) (plan : PlanState)
    (status_update : Option String) (notes_update : Option String)
    (now : Nat) : TaskState × PlanState :=
  let (task, plan) :=
    match status_update with
    | none => (task, plan)
    | some s =>
      if s = "" then (task, plan)
      else
        let old_status := task.status
        let task := { task with status := s }
        if s = "completed" ∧ old_status ≠ "completed" then
          ({ task with completed_at := some now },
           { plan with completed_tasks := plan.completed_tasks + 1 })
        else if old_status = "completed" ∧ s ≠ "completed" then
          ({ task with completed_at := none },
           { plan with completed_tasks := plan.completed_tasks - 1 })
        else (task, plan)
  let task :=
    match notes_update with
    | none => task
    | some nt => if nt = "" then task else { task with notes := some nt }
  (task, plan)

/-- The aggregate accuracy `total_correct / total_questions * 100`
computed inside `calculate_level` (0 when there are no questions). -/
def aggregate_accuracy (tp : TopicPerformance) : ℚ :=
  let total_correct : Nat := (tp.map (fun x => x.2.correct)).sum
  let total_questions : Nat := (tp.map (fun x => x.2.total)).sum
  if total_questions > 0
  then (total_correct : ℚ) / (total_questions : ℚ) * 100 else 0

/-- A one-question database: question 1 has correct answer `"a"`. -/
def cex_resolve : Nat → Option Question :=
  fun i => if i = 1 then some ⟨"a", "Algebra"⟩ else none

/-! ### Closed form of the fallback loop -/

/-- Closed form of the task the fallback loop emits for day index `i`
(valid when `topics` is non-empty): the topic index is `(i / 6) %
topics.length`, the phase index `i % 6`, the type alternates with the
parity of `i`, and the date is `start_date + i`. -/
def fb_task (topics : List String) (start_date : Int) (daily_minutes : Int)
    (i : Nat) : Task :=
  let current_topic := topics.getD ((i / 6) % topics.length) ""
  let sub_info := sub_template i
  { topic := current_topic ++ ": " ++ sub_info.name
    subtopic := some sub_info.name
    description := sub_info.desc ++ " This path ensures you master " ++
      current_topic ++ " from first principles."
    task_type := if i % 2 = 0 then "study" else "practice"
    scheduled_date := start_date + (i : Int)
    duration_minutes := daily_minutes
    priority := 2
    resources := [current_topic ++ " study guide",
                  current_topic ++ " practice labs"]
    pro_tip := none }

/-- The metadata dict the fallback builds. -/
def fallback_metadata (topics : List String) : PlanMetadata :=
  { curriculum_goal := some ("Master the foundations of " ++
      (topics.headD "the subject"))
    learning_tactics :=
      [ "Focus on first principles", "Practice active recall",
        "Build small experiments", "Teach concepts to others" ] }

lemma list_index_mod_eq (l : List String) (ht : l ≠ []) (j : Nat) :
    list_index_mod l j = some (l.getD (j % l.length) "") := by
  have hl : l.length ≠ 0 := by simpa using ht
  simp only [list_index_mod, dif_neg hl]
  rw [List.getD_eq_getElem?_getD,
    List.getElem?_eq_getElem (Nat.mod_lt _ (Nat.pos_of_ne_zero hl))]
  rfl

lemma fallback_go_spec (topics : List String) (ht : topics ≠ [])
    (start_date daily_minutes : Int) :
    ∀ (n i : Nat), fallback_go topics start_date daily_minutes n i (i / 6) i =
      some ((List.range n).map (fun k => fb_task topics start_date daily_minutes (i + k))) := by
  intro n
  induction n with
  | zero => intro i; simp [fallback_go]
  | succ n ih =>
    intro i
    have hidx : (if (i + 1) % subtopic_templates.length = 0
        then i / 6 + 1 else i / 6) = (i + 1) / 6 := by
      show (if (i + 1) % 6 = 0 then i / 6 + 1 else i / 6) = (i + 1) / 6
      split <;> omega
    have hr : (List.range (n + 1)).map
          (fun k => fb_task topics start_date daily_minutes (i + k)) =
        fb_task topics start_date daily_minutes i ::
          (List.range n).map
            (fun k => fb_task topics start_date daily_minutes (i + 1 + k)) := by
      rw [List.range_succ_eq_map, List.map_cons, List.map_map]
      congr 1
      refine List.map_congr_left ?_
      intro k _
      show fb_task topics start_date daily_minutes (i + Nat.succ k) = _
      have hk : i + Nat.succ k = i + 1 + k := by omega
      rw [hk]
    simp only [fallback_go, list_index_mod_eq topics ht]
    simp only [hidx]
    rw [ih (i + 1), hr]
    rfl

lemma generate_algorithmic_fallback_eq (topics : List String) (ht : topics ≠ [])
    (s e : Int) (dh : ℚ) :
    generate_algorithmic_fallback topics s e dh = some
      { topics := topics
        daily_hours := dh
        tasks := (List.range (e - s + 1).toNat).map
          (fb_task topics s (py_int (dh * 60)))
        metadata := fallback_metadata topics } := by
  have h := fallback_go_spec topics ht s (py_int (dh * 60)) (e - s + 1).toNat 0
  rw [show (0 : Nat) / 6 = 0 from rfl] at h
  simp only [generate_algorithmic_fallback]
  rw [h]
  simp only [fallback_metadata]
  refine congrArg some ?_
  have : ∀ k, fb_task topics s (py_int (dh * 60)) (0 + k) =
      fb_task topics s (py_int (dh * 60)) k := by
    intro k
    rw [Nat.zero_add]
  simp only [this]

lemma py_int_two_sixty : py_int (2 * 60) = 120 := by
  have h : (2 * 60 : ℚ) = 120 := by norm_num
  rw [py_int, h, Rat.num_ofNat, Rat.den_ofNat]
  decide

lemma process_tasks_length (subject : String) (topics : List String)
    (s : Int) (dm : Int) (td : Int) :
    ∀ (l : List ProvidedTask) (i : Nat),
      (process_tasks subject topics s dm td i l).length = min l.length (td - i).toNat := by
  intro l
  induction l with
  | nil => intro i; simp [process_tasks]
  | cons t rest ih =>
    intro i
    rw [process_tasks]
    split
    · next h => simp only [List.length_nil, List.length_cons]; omega
    · next h =>
      simp only [List.length_cons, ih (i + 1)]
      omega

lemma process_tasks_getElem? (subject : String) (topics : List String)
    (s : Int) (dm : Int) (td : Int) :
    ∀ (l : List ProvidedTask) (i j : Nat),
      (process_tasks subject topics s dm td i l)[j]? =
        if ((i + j : Nat) : Int) < td
        then (l[j]?).map (process_task subject topics s dm (i + j))
        else none := by
  intro l
  induction l with
  | nil =>
    intro i j
    simp [process_tasks]
  | cons t rest ih =>
    intro i j
    rw [process_tasks]
    split
    · next h =>
      rw [if_neg (by push_cast; omega)]
      simp
    · next h =>
      cases j with
      | zero =>
        rw [if_pos (by push_cast; omega)]
        simp
      | succ k =>
        simp only [List.getElem?_cons_succ, ih (i + 1) k]
        have harg : i + 1 + k = i + (k + 1) := by omega
        rw [harg]

lemma accuracy_of_pos (p : Perf) (h : 0 < p.total) :
    accuracy p = (p.correct : ℚ) / (p.total : ℚ) * 100 := by
  rw [accuracy, if_pos h]

lemma calculate_level_of_ne_nil (tp : TopicPerformance) (htp : tp ≠ []) :
    calculate_level tp =
      (if aggregate_accuracy tp ≥ 80 then "advanced"
       else if aggregate_accuracy tp ≥ 60 then "intermediate"
       else "beginner") := by
  rw [calculate_level, if_neg htp]
  rfl

lemma update_task_status_eq (task : TaskState) (plan : PlanState) (s : String)
    (notes : Option String) (now : Nat) (hs : s ≠ "") :
    (update_task task plan (some s) notes now).1.status = s := by
  cases notes with
  | none =>
    simp only [update_task]
    rw [if_neg hs]
    split_ifs <;> rfl
  | some nt =>
    simp only [update_task]
    rw [if_neg hs]
    split_ifs <;> rfl

lemma update_task_counter_eq (task : TaskState) (plan : PlanState) (s : String)
    (notes : Option String) (now : Nat) (hs : s ≠ "") :
    (update_task task plan (some s) notes now).2.completed_tasks =
      (if s = "completed" ∧ task.status ≠ "completed"
       then plan.completed_tasks + 1
       else if task.status = "completed" ∧ s ≠ "completed"
       then plan.completed_tasks - 1
       else plan.completed_tasks) := by
  cases notes with
  | none =>
    simp only [update_task]
    rw [if_neg hs]
    split_ifs <;> rfl
  | some nt =>
    simp only [update_task]
    rw [if_neg hs]
    split_ifs <;> rfl

lemma update_task_completed_at_eq (task : TaskState) (plan : PlanState)
    (s : String) (notes : Option String) (now : Nat) (hs : s ≠ "") :
    (update_task task plan (some s) notes now).1.completed_at =
      (if s = "completed" ∧ task.status ≠ "completed" then some now
       else if task.status = "completed" ∧ s ≠ "completed" then none
       else task.completed_at) := by
  cases notes with
  | none =>
    simp only [update_task]
    rw [if_neg hs]
    split_ifs <;> rfl
  | some nt =>
    simp only [update_task]
    rw [if_neg hs]
    split_ifs <;> rfl

/-! ### Claim theorems -/

/-- Claim C1, counterexample to the claim as stated: on the delegated
path the collaborator's task list is only truncated, never padded.  With
a successful delegation returning an empty task list over a one-day
range (`start_date = end_date`, so `(end_date - start_date).days + 1 =
1`), the returned plan has no task at all, so the single scheduled day
is not covered. -/
theorem delegated_path_no_padding_cex :
    ∃ plan, generate_ai_study_plan "Mathematics" ["Algebra"] 0 0 2
      (.success [] ⟨none, []⟩) = some plan ∧ plan.tasks = [] :=
  ⟨_, rfl, rfl⟩

/-- Claim C1 (amended): for every `start_date ≤ end_date` and non-empty
`topics`, the fallback plan has exactly `(end_date - start_date).days + 1`
tasks, the task at index `i` is dated `start_date + i`, and every
calendar day of the range is covered; every non-success delegation
outcome returns exactly the fallback plan; on the delegated success
path the accepted list has `min(len(provided), total_days)` entries
(truncated, never padded), the entry at index `i` being dated
`start_date + i`. -/
theorem plan_day_coverage (subject : String) (topics : List String)
    (s e : Int) (dh : ℚ) (ht : topics ≠ []) (hle : s ≤ e) :
    (∃ plan, generate_algorithmic_fallback topics s e dh = some plan ∧
      plan.tasks.length = (e - s + 1).toNat ∧
      (∀ (i : Nat) (t : Task), plan.tasks[i]? = some t → t.scheduled_date = s + i) ∧
      (∀ d : Int, s ≤ d → d ≤ e → ∃ t ∈ plan.tasks, t.scheduled_date = d)) ∧
    (∀ g : GeminiResult, (∀ pt m, g ≠ .success pt m) →
      generate_ai_study_plan subject topics s e dh g =
        generate_algorithmic_fallback topics s e dh) ∧
    (∀ (provided : List ProvidedTask) (m : PlanMetadata), ∃ plan,
      generate_ai_study_plan subject topics s e dh (.success provided m) = some plan ∧
      plan.tasks.length = min provided.length (e - s + 1).toNat ∧
      (∀ (i : Nat) (t : Task), plan.tasks[i]? = some t → t.scheduled_date = s + i)) := by
  refine ⟨⟨_, generate_algorithmic_fallback_eq topics ht s e dh, by simp, ?_, ?_⟩, ?_, ?_⟩
  · intro i t hit
    simp only [List.getElem?_map] at hit
    obtain ⟨a, ha, rfl⟩ := Option.map_eq_some'.mp hit
    obtain ⟨hlt, rfl⟩ := List.getElem?_eq_some.mp ha
    simp only [List.getElem_range]
    rfl
  · intro d hd1 hd2
    refine ⟨fb_task topics s (py_int (dh * 60)) (d - s).toNat, ?_, ?_⟩
    · exact List.mem_map.mpr
        ⟨(d - s).toNat, List.mem_range.mpr (by omega), rfl⟩
    · show s + (((d - s).toNat : Nat) : Int) = d
      omega
  · intro g hg
    cases g with
    | noKey => rfl
    | requestException => rfl
    | httpError st => rfl
    | noCandidates => rfl
    | parseFailure => rfl
    | success pt m => exact absurd rfl (hg pt m)
  · intro provided m
    refine ⟨_, rfl, ?_, ?_⟩
    · have h := process_tasks_length subject topics s (py_int (dh * 60))
        (e - s + 1) provided 0
      rw [h]
      congr 1
      omega
    · intro i t hit
      rw [process_tasks_getElem?] at hit
      split at hit
      · obtain ⟨pt, _, rfl⟩ := Option.map_eq_some'.mp hit
        show s + ((0 + i : Nat) : Int) = s + (i : Int)
        omega
      · exact absurd hit (by simp)

/-- Witness for `plan_day_coverage` at a concrete input: a one-day range
with topics `["Algebra"]` yields a fallback plan with exactly one task. -/
theorem plan_day_coverage_witness :
    ∃ plan, generate_algorithmic_fallback ["Algebra"] 0 0 2 = some plan ∧
      plan.tasks.length = 1 := by
  obtain ⟨⟨p, hp, hlen, _, _⟩, _, _⟩ :=
    plan_day_coverage "Mathematics" ["Algebra"] 0 0 2 (by decide) (by decide)
  refine ⟨p, hp, ?_⟩
  rw [hlen]
  rfl

/-- Claim C2, counterexample to the claim as stated: for an empty topics
list the fallback raises `ZeroDivisionError` (`topic_idx % len(topics)`
with `len(topics) = 0`) on the very first loop iteration — no
placeholder topic is substituted — and `generate_ai_study_plan`
propagates it on the missing-credential path. -/
theorem fallback_empty_topics_raises :
    generate_algorithmic_fallback [] 0 0 2 = none ∧
    generate_ai_study_plan "Mathematics" [] 0 0 2 .noKey = none :=
  ⟨rfl, rfl⟩

/-- Claim C2 (amended): for every `start_date ≤ end_date` and
*non-empty* topics list, `generate_ai_study_plan` never raises: every
delegation outcome — missing credential, request exception, non-success
status, missing candidates, malformed payload, or success — produces a
plan.  (For the empty topics list the fallback raises instead of
substituting a placeholder topic, per the counterexample.) -/
theorem plan_generation_total (subject : String) (topics : List String)
    (s e : Int) (dh : ℚ) (ht : topics ≠ []) (hle : s ≤ e) (g : GeminiResult) :
    ∃ plan, generate_ai_study_plan subject topics s e dh g = some plan := by
  cases g with
  | noKey => exact ⟨_, generate_algorithmic_fallback_eq topics ht s e dh⟩
  | requestException => exact ⟨_, generate_algorithmic_fallback_eq topics ht s e dh⟩
  | httpError st => exact ⟨_, generate_algorithmic_fallback_eq topics ht s e dh⟩
  | noCandidates => exact ⟨_, generate_algorithmic_fallback_eq topics ht s e dh⟩
  | parseFailure => exact ⟨_, generate_algorithmic_fallback_eq topics ht s e dh⟩
  | success pt m => exact ⟨_, rfl⟩

/-- Witness for `plan_generation_total` at a concrete input: the
missing-credential path with non-empty topics returns a plan. -/
theorem plan_generation_total_witness :
    ∃ plan, generate_ai_study_plan "Mathematics" ["Algebra"] 0 0 2 .noKey =
      some plan :=
  plan_generation_total "Mathematics" ["Algebra"] 0 0 2 (by decide) (by decide) .noKey

/-- Claim C3: for every non-empty topics list and day index
`i < total_days`, the fallback task for day `i` uses the topic at index
`(i / 6) % len(topics)` (the topic advances once per full rotation of the
6 phase templates, which advance daily), has type `"study"` for even `i`
and `"practice"` for odd `i`, duration `int(daily_hours * 60)` and date
`start_date + i`; and the concrete example — topics
`["Algebra", "Geometry"]` over a 4-day range (2024-01-01 … 2024-01-04 as
day numbers 0 … 3) at 2 h/day — yields 4 tasks, one per consecutive
day, each of 120 minutes. -/
theorem fallback_task_characterization :
    (∀ (topics : List String) (s e : Int) (dh : ℚ), topics ≠ [] →
      ∀ i : Nat, i < (e - s + 1).toNat →
      ∃ plan, generate_algorithmic_fallback topics s e dh = some plan ∧
        ∃ t : Task, plan.tasks[i]? = some t ∧
          t.topic = topics.getD ((i / 6) % topics.length) "" ++ ": " ++
            (sub_template i).name ∧
          t.task_type = (if i % 2 = 0 then "study" else "practice") ∧
          t.duration_minutes = py_int (dh * 60) ∧
          t.scheduled_date = s + i) ∧
    (∃ plan, generate_algorithmic_fallback ["Algebra", "Geometry"] 0 3 2 = some plan ∧
      plan.tasks.map (fun t => (t.scheduled_date, t.duration_minutes)) =
        [(0, 120), (1, 120), (2, 120), (3, 120)]) := by
  constructor
  · intro topics s e dh ht i hi
    refine ⟨_, generate_algorithmic_fallback_eq topics ht s e dh,
      fb_task topics s (py_int (dh * 60)) i, ?_, rfl, rfl, rfl, rfl⟩
    simp only [List.getElem?_map]
    rw [List.getElem?_range hi]
    rfl
  · refine ⟨_, rfl, ?_⟩
    simp only [List.map_cons, List.map_nil, py_int_two_sixty]
    norm_num

/-- Witness for the universally quantified part of
`fallback_task_characterization`, at day index 7 of a 14-day two-topic
plan: day 7 is in the second phase rotation, so the topic has advanced
to index `(7 / 6) % 2 = 1` (`"Geometry"`), and odd parity gives a
practice task. -/
theorem fallback_task_characterization_witness :
    ∃ plan, generate_algorithmic_fallback ["Algebra", "Geometry"] 0 13 2 = some plan ∧
      ∃ t : Task, plan.tasks[7]? = some t ∧
        t.topic = ["Algebra", "Geometry"].getD ((7 / 6) % (["Algebra", "Geometry"] : List String).length) "" ++ ": " ++
          (sub_template 7).name ∧
        t.task_type = (if 7 % 2 = 0 then "study" else "practice") ∧
        t.duration_minutes = py_int (2 * 60) ∧
        t.scheduled_date = 0 + (7 : Nat) :=
  fallback_task_characterization.1 ["Algebra", "Geometry"] 0 13 2 (by decide) 7 (by decide)

/-- Claim C4: on a successful delegated response, the accepted list has
`min(len(provided), total_days)` entries (entries at index ≥ total_days
are dropped), and the accepted entry at index `i` has its
`scheduled_date` overwritten to `start_date + i` regardless of the date
the collaborator returned, a missing `duration_minutes` filled with
`int(daily_hours * 60)` and a missing `priority` filled with 2. -/
theorem delegated_task_normalization (subject : String) (topics : List String)
    (s e : Int) (dh : ℚ) (provided : List ProvidedTask) (m : PlanMetadata) :
    ∃ plan, generate_ai_study_plan subject topics s e dh (.success provided m) =
        some plan ∧
      plan.tasks.length = min provided.length (e - s + 1).toNat ∧
      (∀ i : Nat, (e - s + 1).toNat ≤ i → plan.tasks[i]? = none) ∧
      (∀ (i : Nat) (pt : ProvidedTask), provided[i]? = some pt →
        i < (e - s + 1).toNat →
        ∃ t : Task, plan.tasks[i]? = some t ∧
          t.scheduled_date = s + i ∧
          t.duration_minutes = pt.duration_minutes.getD (py_int (dh * 60)) ∧
          t.priority = pt.priority.getD 2) := by
  refine ⟨_, rfl, ?_, ?_, ?_⟩
  · have h := process_tasks_length subject topics s (py_int (dh * 60))
      (e - s + 1) provided 0
    rw [h]
    congr 1
    omega
  · intro i hi
    rw [process_tasks_getElem?]
    rw [if_neg (by push_cast; omega)]
  · intro i pt hpt hi
    rw [process_tasks_getElem?]
    rw [if_pos (by push_cast; omega), hpt]
    exact ⟨_, rfl, by show s + ((0 + i : Nat) : Int) = s + (i : Int); omega, rfl, rfl⟩

/-- Witness for `delegated_task_normalization`: one provided entry with
a bogus date and no duration/priority over a two-day range is accepted
at index 0, re-dated to the start day, and filled with the defaults. -/
theorem delegated_task_normalization_witness :
    ∃ plan, generate_ai_study_plan "S" ["T"] 0 1 2
        (.success [⟨"2030-01-01", "U", some "sub", "d", "practice", none, none, [], none⟩]
          ⟨none, []⟩) = some plan ∧
      ∃ t : Task, plan.tasks[0]? = some t ∧
        t.scheduled_date = 0 ∧
        t.duration_minutes = py_int (2 * 60) ∧
        t.priority = 2 := by
  obtain ⟨plan, hp, _, _, hget⟩ :=
    delegated_task_normalization "S" ["T"] 0 1 2
      [⟨"2030-01-01", "U", some "sub", "d", "practice", none, none, [], none⟩] ⟨none, []⟩
  obtain ⟨t, h1, h2, h3, h4⟩ := hget 0 _ rfl (by decide)
  exact ⟨plan, hp, t, h1, h2, h3, h4⟩

/-- Claim C8: the fallback generator is deterministic — two calls with
identical `(topics, start_date, end_date, daily_hours)` return identical
results, in particular identical task sequences element for element. -/
theorem fallback_deterministic (t₁ t₂ : List String) (s₁ s₂ e₁ e₂ : Int)
    (h₁ h₂ : ℚ) (ht : t₁ = t₂) (hs : s₁ = s₂) (he : e₁ = e₂) (hh : h₁ = h₂) :
    generate_algorithmic_fallback t₁ s₁ e₁ h₁ =
      generate_algorithmic_fallback t₂ s₂ e₂ h₂ ∧
    ∀ p₁ p₂, generate_algorithmic_fallback t₁ s₁ e₁ h₁ = some p₁ →
      generate_algorithmic_fallback t₂ s₂ e₂ h₂ = some p₂ →
      p₁.tasks = p₂.tasks := by
  subst ht
  subst hs
  subst he
  subst hh
  refine ⟨rfl, ?_⟩
  intro p₁ p₂ ha hb
  rw [ha] at hb
  cases hb
  rfl

/-- Witness for `fallback_deterministic` at a concrete input. -/
theorem fallback_deterministic_witness :
    generate_algorithmic_fallback ["Algebra"] 0 6 2 =
      generate_algorithmic_fallback ["Algebra"] 0 6 2 :=
  (fallback_deterministic ["Algebra"] ["Algebra"] 0 0 6 6 2 2 rfl rfl rfl rfl).1

/-- Claim C5: each topic entry with `total > 0` is classified by
`accuracy = correct / total * 100` — below 30 a high-severity gap, in
[30, 50) a medium-severity gap, at least 80 a strength, in [50, 80)
nothing; the overall level is `"beginner"` for an empty performance map
and otherwise determined by the aggregate accuracy (≥ 80 advanced,
≥ 60 intermediate, else beginner); and the example
`{"Algebra": {correct: 1, total: 10}}` yields the single gap
`{topic: "Algebra", accuracy: 10.0, severity: "high"}` with overall
level `"beginner"`. -/
theorem gap_analysis_classification (tp : TopicPerformance)
    (hnd : (tp.map Prod.fst).Nodup) :
    (∀ (t : String) (p : Perf), (t, p) ∈ tp → 0 < p.total →
      (((p.correct : ℚ) / (p.total : ℚ) * 100 < 30 →
        GapEntry.mk t ((p.correct : ℚ) / (p.total : ℚ) * 100) "high" ∈
          (generate_gap_analysis tp).gaps) ∧
       (30 ≤ (p.correct : ℚ) / (p.total : ℚ) * 100 →
        (p.correct : ℚ) / (p.total : ℚ) * 100 < 50 →
        GapEntry.mk t ((p.correct : ℚ) / (p.total : ℚ) * 100) "medium" ∈
          (generate_gap_analysis tp).gaps) ∧
       (80 ≤ (p.correct : ℚ) / (p.total : ℚ) * 100 →
        StrengthEntry.mk t ((p.correct : ℚ) / (p.total : ℚ) * 100) ∈
          (generate_gap_analysis tp).strengths) ∧
       (50 ≤ (p.correct : ℚ) / (p.total : ℚ) * 100 →
        (p.correct : ℚ) / (p.total : ℚ) * 100 < 80 →
        (∀ g ∈ (generate_gap_analysis tp).gaps, g.topic ≠ t) ∧
        (∀ st ∈ (generate_gap_analysis tp).strengths, st.topic ≠ t)))) ∧
    (tp = [] → (generate_gap_analysis tp).overall_level = "beginner") ∧
    (tp ≠ [] →
      ((80 ≤ aggregate_accuracy tp →
        (generate_gap_analysis tp).overall_level = "advanced") ∧
       (60 ≤ aggregate_accuracy tp → aggregate_accuracy tp < 80 →
        (generate_gap_analysis tp).overall_level = "intermediate") ∧
       (aggregate_accuracy tp < 60 →
        (generate_gap_analysis tp).overall_level = "beginner"))) ∧
    (generate_gap_analysis [("Algebra", ⟨1, 10⟩)] =
      ⟨[⟨"Algebra", 10, "high"⟩], [], "beginner"⟩) := by
  refine ⟨?_, ?_, ?_, ?_⟩
  · intro t p hmem hpos
    have ha := accuracy_of_pos p hpos
    refine ⟨?_, ?_, ?_, ?_⟩
    · intro h30
      refine List.mem_filterMap.mpr ⟨(t, p), hmem, ?_⟩
      show (if accuracy p < 50
        then some (GapEntry.mk t (accuracy p)
          (if accuracy p < 30 then "high" else "medium"))
        else none) = _
      rw [ha, if_pos (h30.trans (by norm_num)), if_pos h30]
    · intro h30 h50
      refine List.mem_filterMap.mpr ⟨(t, p), hmem, ?_⟩
      show (if accuracy p < 50
        then some (GapEntry.mk t (accuracy p)
          (if accuracy p < 30 then "high" else "medium"))
        else none) = _
      rw [ha, if_pos h50, if_neg (not_lt.mpr h30)]
    · intro h80
      refine List.mem_filterMap.mpr ⟨(t, p), hmem, ?_⟩
      show (if accuracy p < 50 then none
        else if accuracy p ≥ 80 then some (StrengthEntry.mk t (accuracy p))
        else none) = _
      rw [ha, if_neg (not_lt.mpr (le_trans (by norm_num) h80)), if_pos h80]
    · intro h50 h80
      constructor
      · intro g hg heq
        obtain ⟨⟨t', p'⟩, hmem', hf⟩ := List.mem_filterMap.mp hg
        split at hf
        · next hacc =>
          cases hf
          have hinj := List.inj_on_of_nodup_map hnd hmem' hmem
            (show Prod.fst ((t', p') : String × Perf) = Prod.fst ((t, p) : String × Perf) from heq)
          cases hinj
          rw [ha] at hacc
          exact absurd hacc (not_lt.mpr h50)
        · cases hf
      · intro st hst heq
        obtain ⟨⟨t', p'⟩, hmem', hf⟩ := List.mem_filterMap.mp hst
        split at hf
        · cases hf
        · split at hf
          · next hacc =>
            cases hf
            have hinj := List.inj_on_of_nodup_map hnd hmem' hmem
              (show Prod.fst ((t', p') : String × Perf) = Prod.fst ((t, p) : String × Perf) from heq)
            cases hinj
            rw [ha] at hacc
            exact absurd hacc (not_le.mpr h80)
          · cases hf
  · intro h
    subst h
    rfl
  · intro htp
    have hlv : (generate_gap_analysis tp).overall_level =
        (if aggregate_accuracy tp ≥ 80 then "advanced"
         else if aggregate_accuracy tp ≥ 60 then "intermediate"
         else "beginner") := calculate_level_of_ne_nil tp htp
    refine ⟨?_, ?_, ?_⟩
    · intro h80
      rw [hlv, if_pos h80]
    · intro h60 h80
      rw [hlv, if_neg (not_le.mpr h80), if_pos h60]
    · intro h60
      rw [hlv, if_neg (by intro h; exact absurd (le_trans (by norm_num) h) (not_le.mpr h60)),
        if_neg (not_le.mpr h60)]
  · have h1 : accuracy ⟨1, 10⟩ = 10 := by
      rw [accuracy]
      norm_num
    simp only [generate_gap_analysis, List.filterMap_cons, List.filterMap_nil, h1]
    norm_num
    rw [calculate_level_of_ne_nil _ (by simp)]
    have hagg : aggregate_accuracy [("Algebra", ⟨1, 10⟩)] = 10 := by
      simp [aggregate_accuracy]
      norm_num
    rw [hagg]
    norm_num

/-- Witness for `gap_analysis_classification`: on the single-topic map
`{"Algebra": {correct: 1, total: 10}}` the accuracy `1/10*100` is below
30, so a high-severity gap entry for `"Algebra"` is produced. -/
theorem gap_analysis_classification_witness :
    GapEntry.mk "Algebra" (((1 : Nat) : ℚ) / ((10 : Nat) : ℚ) * 100) "high" ∈
      (generate_gap_analysis [("Algebra", ⟨1, 10⟩)]).gaps := by
  have h := (gap_analysis_classification [("Algebra", ⟨1, 10⟩)] (by simp)).1
    "Algebra" ⟨1, 10⟩ (by simp) (by norm_num)
  exact h.1 (by norm_num)

/-- Claim C6: no topic appears in both the `gaps` and the `strengths`
list of a gap analysis (keys of a Python dict are pairwise distinct). -/
theorem gaps_strengths_disjoint (tp : TopicPerformance)
    (hnd : (tp.map Prod.fst).Nodup) :
    ∀ g ∈ (generate_gap_analysis tp).gaps,
      ∀ st ∈ (generate_gap_analysis tp).strengths, g.topic ≠ st.topic := by
  intro g hg st hst heq
  obtain ⟨⟨t1, p1⟩, hm1, hf1⟩ := List.mem_filterMap.mp hg
  obtain ⟨⟨t2, p2⟩, hm2, hf2⟩ := List.mem_filterMap.mp hst
  split at hf1
  · next h1 =>
    cases hf1
    split at hf2
    · cases hf2
    · next h2 =>
      split at hf2
      · cases hf2
        have hinj := List.inj_on_of_nodup_map hnd hm1 hm2
          (show Prod.fst ((t1, p1) : String × Perf) = Prod.fst ((t2, p2) : String × Perf) from heq)
        cases hinj
        exact h2 h1
      · cases hf2
  · cases hf1

/-- Witness for `gaps_strengths_disjoint`: a map with a failing topic
`"A"` (0/10) and a strong topic `"B"` (9/10) has `"A"` in gaps and
`"B"` in strengths, and they differ. -/
theorem gaps_strengths_disjoint_witness :
    (GapEntry.mk "A" (accuracy ⟨0, 10⟩) "high").topic ≠
      (StrengthEntry.mk "B" (accuracy ⟨9, 10⟩)).topic := by
  have ha : accuracy (⟨0, 10⟩ : Perf) < 50 := by
    rw [accuracy]
    norm_num
  have ha30 : accuracy (⟨0, 10⟩ : Perf) < 30 := by
    rw [accuracy]
    norm_num
  have hb : ¬accuracy (⟨9, 10⟩ : Perf) < 50 := by
    rw [accuracy]
    norm_num
  have hb80 : accuracy (⟨9, 10⟩ : Perf) ≥ 80 := by
    rw [accuracy]
    norm_num
  refine gaps_strengths_disjoint [("A", ⟨0, 10⟩), ("B", ⟨9, 10⟩)] (by simp) _ ?_ _ ?_
  · refine List.mem_filterMap.mpr ⟨("A", ⟨0, 10⟩), by simp, ?_⟩
    show (if accuracy (⟨0, 10⟩ : Perf) < 50
      then some (GapEntry.mk "A" (accuracy ⟨0, 10⟩)
        (if accuracy (⟨0, 10⟩ : Perf) < 30 then "high" else "medium"))
      else none) = _
    rw [if_pos ha, if_pos ha30]
  · refine List.mem_filterMap.mpr ⟨("B", ⟨9, 10⟩), by simp, ?_⟩
    show (if accuracy (⟨9, 10⟩ : Perf) < 50 then none
      else if accuracy (⟨9, 10⟩ : Perf) ≥ 80
      then some (StrengthEntry.mk "B" (accuracy ⟨9, 10⟩))
      else none) = _
    rw [if_neg hb, if_pos hb80]

/-- Claim C7: from `completed_tasks = k`, updating a pending task to
`"completed"` and then back to `"pending"` returns the counter to
exactly `k`, with the completion timestamp set by the first update and
cleared by the second; in general every update crossing the completed
boundary changes the counter by exactly 1, and updates that do not
cross it leave the counter unchanged. -/
theorem task_status_roundtrip_counter (task : TaskState) (plan : PlanState)
    (now now' : Nat) :
    (task.status = "pending" →
      (update_task task plan (some "completed") none now).2.completed_tasks =
        plan.completed_tasks + 1 ∧
      (update_task task plan (some "completed") none now).1.completed_at =
        some now ∧
      (update_task (update_task task plan (some "completed") none now).1
        (update_task task plan (some "completed") none now).2
        (some "pending") none now').2.completed_tasks = plan.completed_tasks ∧
      (update_task (update_task task plan (some "completed") none now).1
        (update_task task plan (some "completed") none now).2
        (some "pending") none now').1.completed_at = none) ∧
    (∀ s : String, s ≠ "" →
      (task.status ≠ "completed" → s = "completed" →
        (update_task task plan (some s) none now).2.completed_tasks =
          plan.completed_tasks + 1) ∧
      (task.status = "completed" → s ≠ "completed" →
        (update_task task plan (some s) none now).2.completed_tasks =
          plan.completed_tasks - 1) ∧
      ((task.status = "completed" ↔ s = "completed") →
        (update_task task plan (some s) none now).2.completed_tasks =
          plan.completed_tasks)) := by
  have hc : ("completed" : String) ≠ "" := by decide
  have hp : ("pending" : String) ≠ "" := by decide
  constructor
  · intro hpend
    have hne : task.status ≠ "completed" := by
      rw [hpend]
      decide
    have e1 := update_task_counter_eq task plan "completed" none now hc
    rw [if_pos ⟨rfl, hne⟩] at e1
    have e2 := update_task_completed_at_eq task plan "completed" none now hc
    rw [if_pos ⟨rfl, hne⟩] at e2
    have est := update_task_status_eq task plan "completed" none now hc
    have e3 := update_task_counter_eq
      (update_task task plan (some "completed") none now).1
      (update_task task plan (some "completed") none now).2
      "pending" none now' hp
    rw [if_neg (by intro h; exact absurd h.1 (by decide)),
      if_pos ⟨est, by decide⟩] at e3
    have e4 := update_task_completed_at_eq
      (update_task task plan (some "completed") none now).1
      (update_task task plan (some "completed") none now).2
      "pending" none now' hp
    rw [if_neg (by intro h; exact absurd h.1 (by decide)),
      if_pos ⟨est, by decide⟩] at e4
    refine ⟨e1, e2, ?_, e4⟩
    rw [e3, e1]
    omega
  · intro s hs
    have ec := update_task_counter_eq task plan s none now hs
    refine ⟨?_, ?_, ?_⟩
    · intro hold hnew
      rw [ec, if_pos ⟨hnew, hold⟩]
    · intro hold hnew
      rw [ec, if_neg (by intro h; exact hnew h.1), if_pos ⟨hold, hnew⟩]
    · intro hiff
      by_cases hnew : s = "completed"
      · have hold : task.status = "completed" := hiff.mpr hnew
        rw [ec, if_neg (by intro h; exact h.2 hold),
          if_neg (by intro h; exact h.2 hnew)]
      · have hold : task.status ≠ "completed" := fun h => hnew (hiff.mp h)
        rw [ec, if_neg (by intro h; exact hnew h.1),
          if_neg (by intro h; exact hold h.1)]

/-- Witness for `task_status_roundtrip_counter`: a pending task on a
plan with 5 completed tasks — completing it raises the counter to 6 and
stamps it, reverting to pending restores 5 and clears the stamp. -/
theorem task_status_roundtrip_counter_witness :
    (update_task ⟨"pending", none, none⟩ ⟨5⟩ (some "completed") none 1).2.completed_tasks = 6 ∧
    (update_task ⟨"pending", none, none⟩ ⟨5⟩ (some "completed") none 1).1.completed_at = some 1 ∧
    (update_task (update_task ⟨"pending", none, none⟩ ⟨5⟩ (some "completed") none 1).1
      (update_task ⟨"pending", none, none⟩ ⟨5⟩ (some "completed") none 1).2
      (some "pending") none 2).2.completed_tasks = 5 ∧
    (update_task (update_task ⟨"pending", none, none⟩ ⟨5⟩ (some "completed") none 1).1
      (update_task ⟨"pending", none, none⟩ ⟨5⟩ (some "completed") none 1).2
      (some "pending") none 2).1.completed_at = none := by
  obtain ⟨h1, h2, h3, h4⟩ :=
    (task_status_roundtrip_counter ⟨"pending", none, none⟩ ⟨5⟩ 1 2).1 rfl
  refine ⟨?_, h2, h3, h4⟩
  rw [h1]
  rfl

/-- Claim C9, counterexample to "the score is 0 exactly when the number
of answered questions is 0": a batch with one answered question whose
answer is wrong has `answered_questions = 1` and still `score = 0`, so
score 0 does not imply an empty batch. -/
theorem score_zero_with_answers_cex :
    (submit_score cex_resolve [⟨1, "b"⟩]).score = 0 ∧
    (submit_score cex_resolve [⟨1, "b"⟩]).answered_questions = 1 := by
  have hcc : correct_count cex_resolve [⟨1, "b"⟩] = 0 := by
    simp [correct_count, cex_resolve]
  constructor
  · show (if ([⟨1, "b"⟩] : List AnswerSubmission) ≠ []
      then (correct_count cex_resolve [⟨1, "b"⟩] : ℚ) /
        (([⟨1, "b"⟩] : List AnswerSubmission).length : ℚ) * 100
      else 0) = 0
    rw [hcc]
    norm_num
  · rfl

/-- Claim C9 (amended): scoring skips unresolved question ids without
failing the batch (they add to the denominator but never to
`correct_count`); `answered_questions` is the full batch length;
`score = correct_count / answered_count * 100`, defined as 0 for the
empty batch; and the score is 0 exactly when `correct_count` is 0 — in
particular whenever `answered_questions = 0`, but also for non-empty
batches with no correct resolved answer. -/
theorem submission_scoring_amended (resolve : Nat → Option Question)
    (answers : List AnswerSubmission) :
    (submit_score resolve answers).answered_questions = answers.length ∧
    (answers = [] → (submit_score resolve answers).score = 0) ∧
    (answers ≠ [] → (submit_score resolve answers).score =
      ((submit_score resolve answers).correct_answers : ℚ) /
        (answers.length : ℚ) * 100) ∧
    ((submit_score resolve answers).score = 0 ↔
      (submit_score resolve answers).correct_answers = 0) ∧
    (∀ (qid : Nat) (ans : String), resolve qid = none →
      (submit_score resolve (⟨qid, ans⟩ :: answers)).correct_answers =
        (submit_score resolve answers).correct_answers ∧
      (submit_score resolve (⟨qid, ans⟩ :: answers)).answered_questions =
        (submit_score resolve answers).answered_questions + 1) := by
  refine ⟨rfl, ?_, ?_, ?_, ?_⟩
  · intro h
    subst h
    rfl
  · intro h
    show (if answers ≠ [] then _ else _) = _
    rw [if_pos h]
    rfl
  · by_cases h : answers = []
    · subst h
      show ((0 : ℚ) = 0 ↔ correct_count resolve [] = 0)
      simp [correct_count]
    · show (if answers ≠ [] then (correct_count resolve answers : ℚ) /
        (answers.length : ℚ) * 100 else 0) = 0 ↔ _
      rw [if_pos h]
      have hlen : ((answers.length : ℚ)) ≠ 0 := by
        simpa [List.length_eq_zero] using h
      rw [mul_eq_zero, div_eq_zero_iff]
      have hsc : (submit_score resolve answers).correct_answers =
          correct_count resolve answers := rfl
      rw [hsc]
      constructor
      · rintro ((hc | hl) | h100)
        · exact_mod_cast hc
        · exact absurd hl hlen
        · norm_num at h100
      · intro hc
        exact Or.inl (Or.inl (by exact_mod_cast hc))
  · intro qid ans hres
    constructor
    · show correct_count resolve (⟨qid, ans⟩ :: answers) = _
      rw [correct_count, hres]
      rfl
    · show (⟨qid, ans⟩ :: answers : List AnswerSubmission).length = answers.length + 1
      rfl

/-- Witness for `submission_scoring_amended`: the empty batch on the
one-question database scores 0. -/
theorem submission_scoring_amended_witness :
    (submit_score cex_resolve []).score = 0 :=
  (submission_scoring_amended cex_resolve []).2.1 rfl

/-- Claim C10: the status update applies any non-empty status string
verbatim, with no validation against the status set or a transition
relation; the counter changes exactly when exactly one of the old and
new status is the string `"completed"`; in particular updating a
completed task to an unknown status such as `"done"` decrements the
counter and clears the timestamp. -/
theorem update_task_no_validation (task : TaskState) (plan : PlanState)
    (s : String) (notes : Option String) (now : Nat) (hs : s ≠ "") :
    (update_task task plan (some s) notes now).1.status = s ∧
    ((update_task task plan (some s) notes now).2.completed_tasks ≠
        plan.completed_tasks ↔
      ((s = "completed" ∧ task.status ≠ "completed") ∨
       (task.status = "completed" ∧ s ≠ "completed"))) ∧
    (task.status = "completed" → s ≠ "completed" →
      (update_task task plan (some s) notes now).2.completed_tasks =
        plan.completed_tasks - 1 ∧
      (update_task task plan (some s) notes now).1.completed_at = none) := by
  have ec := update_task_counter_eq task plan s notes now hs
  refine ⟨update_task_status_eq task plan s notes now hs, ?_, ?_⟩
  · rw [ec]
    split_ifs with h1 h2
    · constructor
      · intro _
        exact Or.inl h1
      · intro _
        omega
    · constructor
      · intro _
        exact Or.inr h2
      · intro _
        omega
    · constructor
      · intro h
        exact absurd rfl h
      · rintro (a | b)
        · exact absurd a h1
        · exact absurd b h2
  · intro hold hnew
    have ea := update_task_completed_at_eq task plan s notes now hs
    rw [ec, ea, if_neg (fun h => hnew h.1), if_pos ⟨hold, hnew⟩,
      if_neg (fun h : s = "completed" ∧ task.status ≠ "completed" => hnew h.1),
      if_pos ⟨hold, hnew⟩]
    exact ⟨rfl, rfl⟩

/-- Witness for `update_task_no_validation`: updating a completed task
to the unknown status `"done"` sets that status verbatim, decrements
the counter from 3 to 2 and clears the completion timestamp. -/
theorem update_task_no_validation_witness :
    (update_task ⟨"completed", some 7, none⟩ ⟨3⟩ (some "done") none 0).1.status = "done" ∧
    (update_task ⟨"completed", some 7, none⟩ ⟨3⟩ (some "done") none 0).2.completed_tasks = 2 ∧
    (update_task ⟨"completed", some 7, none⟩ ⟨3⟩ (some "done") none 0).1.completed_at = none := by
  obtain ⟨h1, _, h3⟩ :=
    update_task_no_validation ⟨"completed", some 7, none⟩ ⟨3⟩ "done" none 0 (by decide)
  obtain ⟨h4, h5⟩ := h3 rfl (by decide)
  refine ⟨h1, ?_, h5⟩
  rw [h4]
  rfl

end EduAI
